import Mathlib

/-!
# Verification of the Resume-Generator registration service

Shallow embedding of `src/server.js`. The repository ships two variants of the
server in that file (separated by a marker): variant 1 (lines 1-85) is a plain
JSON registration API; variant 2 (lines 85-303) adds a multer file upload of a
payment screenshot, a try/catch around every handler, and file cleanup logic.

Modelling conventions:
- A MongoDB document is `UserDoc`; the `users` collection is a `List UserDoc`
  in insertion order. `_id` values (MongoDB ObjectIds) are modelled as `Nat`,
  assigned from a counter `nextId`; the 24-hex-character string form used in
  the DELETE route is decoded by `parseObjectId`.
- The local filesystem of payment screenshots is the list `files` of stored
  paths (each path present at most once, as on a real filesystem; an
  overwrite by `fsWrite` leaves the list unchanged).
- JavaScript falsiness of a missing or empty form field is modelled by the
  empty string, which `!field` and `!""` treat identically.
- `parseInt(age)` is modelled by `parseIntJS : String → Option Int`, where
  `none` stands for the JavaScript `NaN` result (no leading numeric prefix).
- A handler returns `HttpResponse × ServerState` (the JSON `message` with its
  HTTP status, and the post-state). `res.json(x)` without `res.status` is
  status 200. Variant 1's DELETE handler has no try/catch, so a throw from
  `new ObjectId(...)` escapes the handler: it is embedded as
  `Except String (HttpResponse × ServerState)` with `.error` for the escaped
  exception.
- `await usersCollection.insertOne(...)` in variant 2 sits inside try/catch;
  a storage failure of that insert is modelled by the `insertErr` parameter
  (`some msg` makes the insert throw with message `msg`).
-/

/-- JavaScript whitespace accepted by `parseInt` before the number. -/
def isJsSpace (c : Char) : Bool :=
  c = ' ' || c = '\t' || c = '\n' || c = '\r' || c = '\x0b' || c = '\x0c'

/-- Value of a hexadecimal digit character, `none` for a non-digit. -/
def hexDigitVal (c : Char) : Option Nat :=
  if '0' ≤ c ∧ c ≤ '9' then some (c.toNat - '0'.toNat)
  else if 'a' ≤ c ∧ c ≤ 'f' then some (c.toNat - 'a'.toNat + 10)
  else if 'A' ≤ c ∧ c ≤ 'F' then some (c.toNat - 'A'.toNat + 10)
  else none

/-- Consume leading digits of the given radix, accumulating a value;
`none` when no digit at all was consumed (JavaScript `NaN`). -/
def takeDigitsAux (radix : Nat) : List Char → Option Nat → Option Nat
  | [], acc => acc
  | c :: cs, acc =>
    match hexDigitVal c with
    | some d => if d < radix then takeDigitsAux radix cs (some (acc.getD 0 * radix + d)) else acc
    | none => acc

def parseDigits (radix : Nat) (cs : List Char) : Option Nat :=
  takeDigitsAux radix cs none

/-- Digits after an optional `0x`/`0X` prefix (hexadecimal), else base 10. -/
def parseUnsigned : List Char → Option Nat
  | '0' :: 'x' :: rest => parseDigits 16 rest
  | '0' :: 'X' :: rest => parseDigits 16 rest
  | cs => parseDigits 10 cs

/-- JavaScript `parseInt(s)` with no radix argument: trim whitespace, optional
sign, optional hex prefix, longest digit prefix; `none` models `NaN`. -/
def parseIntJS (s : String) : Option Int :=
  match s.data.dropWhile isJsSpace with
  | '-' :: rest => (parseUnsigned rest).map (fun n => -(n : Int))
  | '+' :: rest => (parseUnsigned rest).map (fun n => (n : Int))
  | cs => (parseUnsigned cs).map (fun n => (n : Int))

/-- The seven form fields of `req.body` read by both register handlers.
A missing field is the empty string (both are falsy in JavaScript). -/
structure RegInput where
  name : String
  email : String
  phone : String
  age : String
  gender : String
  experience : String
  participation : String
  deriving Repr, DecidableEq

/-- `req.file` as produced by multer disk storage: generated filename and
the path it was written to. -/
structure UploadedFile where
  filename : String
  path : String
  deriving Repr, DecidableEq

/-- One document of the `users` collection. Variant 1 never sets the two
payment fields (they stay `none`); variant 2 always sets both.
`age` is the stored `parseInt` result, `none` standing for `NaN`. -/
structure UserDoc where
  _id : Nat
  name : String
  email : String
  phone : String
  age : Option Int
  gender : String
  experience : String
  participation : String
  paymentScreenshot : Option String
  paymentScreenshotPath : Option String
  registeredAt : Nat
  deriving Repr, DecidableEq

/-- The persistent state a handler can touch: the `users` collection, the
set of stored screenshot paths, and the id counter. -/
structure ServerState where
  db : List UserDoc
  files : List String
  nextId : Nat
  deriving Repr, DecidableEq

/-- A JSON `{message}` reply with its HTTP status (200 for bare `res.json`). -/
structure HttpResponse where
  status : Nat
  message : String
  deriving Repr, DecidableEq

/-- `!name || !email || !phone || !age || !gender || !experience || !participation`. -/
def requiredMissing (inp : RegInput) : Bool :=
  inp.name.isEmpty || inp.email.isEmpty || inp.phone.isEmpty || inp.age.isEmpty ||
    inp.gender.isEmpty || inp.experience.isEmpty || inp.participation.isEmpty

/-- `usersCollection.findOne({ email })`. -/
def findOneByEmail (db : List UserDoc) (email : String) : Option UserDoc :=
  db.find? (fun d => d.email == email)

/-- Writing a file at `p` (multer disk storage): a fresh path is appended,
an existing path is overwritten in place. -/
def fsWrite (fs : List String) (p : String) : List String :=
  if p ∈ fs then fs else fs ++ [p]

/-- POST /register of variant 1 (src/server.js lines 24-51): validate the
seven fields, reject a duplicate email with a 200 informational message,
otherwise insert the document and acknowledge. `ts` is `Date.now`. -/
def register1 (s : ServerState) (inp : RegInput) (ts : Nat) : HttpResponse × ServerState :=
  if requiredMissing inp then
    (⟨400, "All fields are required"⟩, s)
  else if (findOneByEmail s.db inp.email).isSome then
    (⟨200, "User already registered with this email"⟩, s)
  else
    (⟨200, "Registration successful! See you at the festival!"⟩,
      { s with
        db := s.db ++ [{ _id := s.nextId, name := inp.name, email := inp.email,
                         phone := inp.phone, age := parseIntJS inp.age,
                         gender := inp.gender, experience := inp.experience,
                         participation := inp.participation,
                         paymentScreenshot := none, paymentScreenshotPath := none,
                         registeredAt := ts }],
        nextId := s.nextId + 1 })

/-- POST /register of variant 2 (src/server.js lines 184-228). The multer
middleware has already written the uploaded file (if any) before this body
runs; `file?` is `req.file`. On a duplicate email the handler unlinks the
uploaded file; on the validation branch and on an insert failure (the catch
branch, `insertErr = some msg`) it does not. -/
def register2 (s : ServerState) (inp : RegInput) (file? : Option UploadedFile)
    (ts : Nat) (insertErr : Option String) : HttpResponse × ServerState :=
  if requiredMissing inp then
    (⟨400, "All fields are required"⟩, s)
  else
    match file? with
    | none => (⟨400, "Payment screenshot is required"⟩, s)
    | some f =>
      if (findOneByEmail s.db inp.email).isSome then
        (⟨400, "User already registered with this email"⟩,
          { s with files := s.files.erase f.path })
      else
        match insertErr with
        | some msg => (⟨500, "Registration failed: " ++ msg⟩, s)
        | none =>
          (⟨200, "Registration successful! Payment verification in progress. See you at the festival!"⟩,
            { s with
              db := s.db ++ [{ _id := s.nextId, name := inp.name, email := inp.email,
                               phone := inp.phone, age := parseIntJS inp.age,
                               gender := inp.gender, experience := inp.experience,
                               participation := inp.participation,
                               paymentScreenshot := some f.filename,
                               paymentScreenshotPath := some f.path,
                               registeredAt := ts }],
              nextId := s.nextId + 1 })

/-- GET /users of variant 1: `usersCollection.find().toArray()`, verbatim. -/
def getUsers1 (s : ServerState) : List UserDoc :=
  s.db

/-- GET /users of variant 2: identical query, no projection. -/
def getUsers2 (s : ServerState) : List UserDoc :=
  s.db

/-- `countDocuments(filter)`. -/
def countDocuments (db : List UserDoc) (p : UserDoc → Bool) : Nat :=
  db.countP p

/-- The GET /stats payload (identical queries in both variants). -/
structure Stats where
  total : Nat
  male : Nat
  female : Nat
  beginners : Nat
  competition : Nat
  workshop : Nat
  deriving Repr, DecidableEq

/-- GET /stats (variant 1 lines 60-73, variant 2 lines 242-260): six
independent counts; `$in` on participation admits the literal "both". -/
def getStats (db : List UserDoc) : Stats :=
  { total := db.length
    male := countDocuments db (fun d => d.gender == "male")
    female := countDocuments db (fun d => d.gender == "female")
    beginners := countDocuments db (fun d => d.experience == "beginner")
    competition := countDocuments db (fun d => d.participation == "competition" || d.participation == "both")
    workshop := countDocuments db (fun d => d.participation == "workshop" || d.participation == "both") }

/-- `new ObjectId(str)`: accepts exactly a 24-character hex string and throws
otherwise; the decoded value identifies the document. -/
def parseObjectId (s : String) : Option Nat :=
  if s.data.length = 24 ∧ s.data.all (fun c => (hexDigitVal c).isSome) then
    some (s.data.foldl (fun a c => a * 16 + (hexDigitVal c).getD 0) 0)
  else none

/-- `deleteOne({_id})`: removes the first matching document, a no-op when
none matches. -/
def deleteOneById (db : List UserDoc) (oid : Nat) : List UserDoc :=
  db.eraseP (fun d => d._id == oid)

/-- DELETE /users/:id of variant 1 (lines 76-80): no try/catch, so a
malformed id makes `new ObjectId` throw out of the handler (`.error`);
otherwise `deleteOne` runs and a 200 acknowledgment is sent. No file
handling exists in this variant. -/
def deleteUser1 (s : ServerState) (idStr : String) : Except String (HttpResponse × ServerState) :=
  match parseObjectId idStr with
  | none => Except.error "input must be a 24 character hex string"
  | some oid =>
    Except.ok (⟨200, "User deleted successfully"⟩, { s with db := deleteOneById s.db oid })

/-- DELETE /users/:id of variant 2 (lines 263-282): inside try/catch. A
malformed id is caught and answered with 500. Otherwise the document is
looked up; if it has a `paymentScreenshotPath` and that file exists
(`fs.existsSync`) the file is unlinked; then `deleteOne` runs. -/
def deleteUser2 (s : ServerState) (idStr : String) : HttpResponse × ServerState :=
  match parseObjectId idStr with
  | none => (⟨500, "Failed to delete user"⟩, s)
  | some oid =>
    let user? := s.db.find? (fun d => d._id == oid)
    let files' :=
      match user? with
      | some u =>
        match u.paymentScreenshotPath with
        | some p => if p ∈ s.files then s.files.erase p else s.files
        | none => s.files
      | none => s.files
    (⟨200, "User deleted successfully"⟩,
      { s with db := deleteOneById s.db oid, files := files' })

/-- The empty deployment: no users, no stored screenshots. -/
def initState : ServerState :=
  { db := [], files := [], nextId := 0 }

/-- States of variant 1 reachable from startup by its mutating routes
(GET /users and GET /stats do not change state; a DELETE whose ObjectId
throws leaves the handler before touching state). -/
inductive Reachable1 : ServerState → Prop where
  | init : Reachable1 initState
  | reg (s : ServerState) (inp : RegInput) (ts : Nat) :
      Reachable1 s → Reachable1 (register1 s inp ts).2
  | del (s : ServerState) (idStr : String) (r : HttpResponse) (s' : ServerState) :
      Reachable1 s → deleteUser1 s idStr = Except.ok (r, s') → Reachable1 s'

/-- States of variant 2 reachable from startup. A registration with an
attachment first has multer write the file (`fsWrite`), then runs the
handler; `insertErr` ranges over possible storage failures of the insert. -/
inductive Reachable2 : ServerState → Prop where
  | init : Reachable2 initState
  | reg (s : ServerState) (inp : RegInput) (f : UploadedFile) (ts : Nat) (insertErr : Option String) :
      Reachable2 s →
      Reachable2 (register2 { s with files := fsWrite s.files f.path } inp (some f) ts insertErr).2
  | regNoFile (s : ServerState) (inp : RegInput) (ts : Nat) (insertErr : Option String) :
      Reachable2 s → Reachable2 (register2 s inp none ts insertErr).2
  | del (s : ServerState) (idStr : String) :
      Reachable2 s → Reachable2 (deleteUser2 s idStr).2

/-! ## State invariants -/

/-- Invariant of the persistent state maintained by both variants: emails are
unique (the duplicate check guards every insert), `_id` values are unique and
below the allocation counter, and the filesystem holds each path once. -/
structure StateInv (s : ServerState) : Prop where
  emails : (s.db.map UserDoc.email).Nodup
  ids : (s.db.map UserDoc._id).Nodup
  idsLt : ∀ d ∈ s.db, d._id < s.nextId
  filesNodup : s.files.Nodup

theorem inv_init : StateInv initState := by
  constructor <;> simp [initState]

theorem inv_append_doc (s : ServerState) (d : UserDoc) (fs : List String) (hInv : StateInv s)
    (hemail : d.email ∉ s.db.map UserDoc.email) (hid : d._id = s.nextId)
    (hfs : fs.Nodup) :
    StateInv { s with db := s.db ++ [d], nextId := s.nextId + 1, files := fs } := by
  constructor
  · rw [List.map_append]
    refine hInv.emails.append (List.nodup_singleton _) ?_
    intro a ha hb
    simp only [List.map_cons, List.map_nil, List.mem_singleton] at hb
    subst hb
    exact hemail ha
  · rw [List.map_append]
    refine hInv.ids.append (List.nodup_singleton _) ?_
    intro a ha hb
    simp only [List.map_cons, List.map_nil, List.mem_singleton] at hb
    subst hb
    obtain ⟨u, hu, he⟩ := List.mem_map.mp ha
    have := hInv.idsLt u hu
    omega
  · intro x hx
    rcases List.mem_append.mp hx with hx | hx
    · exact Nat.lt_succ_of_lt (hInv.idsLt x hx)
    · have hxd : x = d := List.mem_singleton.mp hx
      rw [hxd, hid]
      exact Nat.lt_succ_self _
  · exact hfs

theorem inv_eraseP (s : ServerState) (p : UserDoc → Bool) (fs : List String)
    (hInv : StateInv s) (hfs : fs.Nodup) :
    StateInv { s with db := s.db.eraseP p, files := fs } := by
  constructor
  · exact hInv.emails.sublist ((List.eraseP_sublist s.db).map UserDoc.email)
  · exact hInv.ids.sublist ((List.eraseP_sublist s.db).map UserDoc._id)
  · intro d hd
    exact hInv.idsLt d ((List.eraseP_sublist s.db).subset hd)
  · exact hfs

/-- A `findOne({email})` miss really means the email is fresh. -/
theorem not_mem_of_findOne_none (db : List UserDoc) (email : String)
    (h : findOneByEmail db email = none) : email ∉ db.map UserDoc.email := by
  intro hmem
  obtain ⟨u, hu, he⟩ := List.mem_map.mp hmem
  have := List.find?_eq_none.mp h u hu
  simp [he] at this

theorem inv_register1_step (s : ServerState) (inp : RegInput) (ts : Nat) (hInv : StateInv s) :
    StateInv (register1 s inp ts).2 := by
  unfold register1
  split
  · exact hInv
  · split
    · exact hInv
    · rename_i hval hfind
      have hnone : findOneByEmail s.db inp.email = none := by
        cases h : findOneByEmail s.db inp.email
        · rfl
        · exact absurd (by simp [h]) hfind
      exact inv_append_doc s _ s.files hInv (not_mem_of_findOne_none s.db inp.email hnone)
        rfl hInv.filesNodup

theorem inv_register2_step (s : ServerState) (inp : RegInput) (file? : Option UploadedFile)
    (ts : Nat) (insertErr : Option String) (hInv : StateInv s) :
    StateInv (register2 s inp file? ts insertErr).2 := by
  unfold register2
  split
  · exact hInv
  · match file? with
    | none => exact hInv
    | some f =>
      simp only
      split
      · exact { hInv with filesNodup := hInv.filesNodup.erase f.path }
      · match insertErr with
        | some msg => exact hInv
        | none =>
          rename_i hval hfind
          have hnone : findOneByEmail s.db inp.email = none := by
            cases h : findOneByEmail s.db inp.email
            · rfl
            · exact absurd (by simp [h]) hfind
          exact inv_append_doc s _ s.files hInv (not_mem_of_findOne_none s.db inp.email hnone)
            rfl hInv.filesNodup

theorem inv_deleteUser1_step (s : ServerState) (idStr : String) (r : HttpResponse)
    (s' : ServerState) (hInv : StateInv s) (hok : deleteUser1 s idStr = Except.ok (r, s')) :
    StateInv s' := by
  unfold deleteUser1 at hok
  cases h : parseObjectId idStr with
  | none => rw [h] at hok; cases hok
  | some oid =>
    rw [h] at hok
    cases hok
    exact inv_eraseP s _ s.files hInv hInv.filesNodup

theorem inv_deleteUser2_step (s : ServerState) (idStr : String) (hInv : StateInv s) :
    StateInv (deleteUser2 s idStr).2 := by
  unfold deleteUser2
  cases h : parseObjectId idStr with
  | none => exact hInv
  | some oid =>
    simp only
    refine inv_eraseP s _ _ hInv ?_
    split
    · split
      · split
        · exact hInv.filesNodup.erase _
        · exact hInv.filesNodup
      · exact hInv.filesNodup
    · exact hInv.filesNodup

theorem inv_fsWrite_step (s : ServerState) (p : String) (hInv : StateInv s) :
    StateInv { s with files := fsWrite s.files p } := by
  refine { hInv with filesNodup := ?_ }
  unfold fsWrite
  split
  · exact hInv.filesNodup
  · rename_i hp
    refine hInv.filesNodup.append (List.nodup_singleton _) ?_
    intro a ha hb
    rcases List.mem_singleton.mp hb with rfl
    exact hp ha

/-- Every state variant 1 can reach satisfies the invariant. -/
theorem reachable1_inv (s : ServerState) (h : Reachable1 s) : StateInv s := by
  induction h with
  | init => exact inv_init
  | reg s inp ts _ ih => exact inv_register1_step s inp ts ih
  | del s idStr r s' _ hok ih => exact inv_deleteUser1_step s idStr r s' ih hok

/-- Every state variant 2 can reach satisfies the invariant. -/
theorem reachable2_inv (s : ServerState) (h : Reachable2 s) : StateInv s := by
  induction h with
  | init => exact inv_init
  | reg s inp f ts insertErr _ ih =>
    exact inv_register2_step _ inp (some f) ts insertErr (inv_fsWrite_step s f.path ih)
  | regNoFile s inp ts insertErr _ ih => exact inv_register2_step s inp none ts insertErr ih
  | del s idStr _ ih => exact inv_deleteUser2_step s idStr ih

/-- Variant 1 never stores payment fields: its insert leaves both `none`. -/
theorem reachable1_noImages (s : ServerState) (h : Reachable1 s) :
    ∀ d ∈ s.db, d.paymentScreenshot = none ∧ d.paymentScreenshotPath = none := by
  induction h with
  | init => intro d hd; cases hd
  | reg s inp ts _ ih =>
    intro d hd
    unfold register1 at hd
    split at hd
    · exact ih d hd
    · split at hd
      · exact ih d hd
      · simp only at hd
        rcases List.mem_append.mp hd with hd | hd
        · exact ih d hd
        · rcases List.mem_singleton.mp hd with rfl
          exact ⟨rfl, rfl⟩
  | del s idStr r s' _ hok ih =>
    intro d hd
    unfold deleteUser1 at hok
    cases h : parseObjectId idStr with
    | none => rw [h] at hok; cases hok
    | some oid =>
      rw [h] at hok
      cases hok
      exact ih d ((List.eraseP_sublist s.db).subset hd)

/-! ## Lookup and deletion helpers -/

/-- With unique ids, `findOne({_id})` hits exactly the member document. -/
theorem find?_id_of_mem (l : List UserDoc) (d : UserDoc)
    (hnd : (l.map UserDoc._id).Nodup) (hd : d ∈ l) :
    l.find? (fun x => x._id == d._id) = some d := by
  induction l with
  | nil => cases hd
  | cons a l ih =>
    simp only [List.map_cons, List.nodup_cons] at hnd
    rcases List.mem_cons.mp hd with rfl | hd
    · exact List.find?_cons_of_pos _ (by simp)
    · have hna : ¬ (a._id == d._id) = true := by
        simp only [beq_iff_eq]
        intro he
        exact hnd.1 (he ▸ List.mem_map.mpr ⟨d, hd, rfl⟩)
      rw [@List.find?_cons_of_neg UserDoc (fun x => x._id == d._id) a l hna]
      exact ih hnd.2 hd

/-- After `deleteOne({_id: oid})` on a collection with unique ids, no
document with id `oid` remains. -/
theorem eraseP_id_ne (l : List UserDoc) (oid : Nat)
    (hnd : (l.map UserDoc._id).Nodup) :
    ∀ r ∈ l.eraseP (fun x => x._id == oid), r._id ≠ oid := by
  induction l with
  | nil => intro r hr; cases hr
  | cons a l ih =>
    simp only [List.map_cons, List.nodup_cons] at hnd
    by_cases ha : a._id = oid
    · rw [List.eraseP_cons_of_pos (by simp [ha])]
      intro r hr he
      exact hnd.1 (ha ▸ he ▸ List.mem_map.mpr ⟨r, hr, rfl⟩)
    · rw [List.eraseP_cons_of_neg (by simp [ha])]
      intro r hr
      rcases List.mem_cons.mp hr with rfl | hr
      · exact ha
      · exact ih hnd.2 r hr

/-- `deleteOne` of an id no document carries is a no-op. -/
theorem eraseP_id_of_absent (l : List UserDoc) (oid : Nat)
    (h : ∀ d ∈ l, d._id ≠ oid) : l.eraseP (fun x => x._id == oid) = l :=
  List.eraseP_of_forall_not (by intro a ha; simp [h a ha])

/-- `findOne` of an id no document carries misses. -/
theorem find?_id_of_absent (l : List UserDoc) (oid : Nat)
    (h : ∀ d ∈ l, d._id ≠ oid) : l.find? (fun x => x._id == oid) = none :=
  List.find?_eq_none.mpr (by intro x hx; simp [h x hx])

/-! ## Branch characterizations of the handlers -/

/-- Variant 1, duplicate email: whatever the validation outcome, the
post-state is untouched. -/
theorem register1_state_of_dup (s : ServerState) (inp : RegInput) (ts : Nat)
    (h : (findOneByEmail s.db inp.email).isSome = true) :
    (register1 s inp ts).2 = s := by
  unfold register1
  split
  · rfl
  · rfl

/-- Variant 1, duplicate email passing validation: the exact informational
200 response of `res.json({message: ...})`. -/
theorem register1_dup (s : ServerState) (inp : RegInput) (ts : Nat)
    (hv : requiredMissing inp = false)
    (h : (findOneByEmail s.db inp.email).isSome = true) :
    register1 s inp ts = (⟨200, "User already registered with this email"⟩, s) := by
  unfold register1
  rw [if_neg (by simp [hv]), if_pos h]

/-- Variant 1, fresh email passing validation: the document is appended. -/
theorem register1_insert (s : ServerState) (inp : RegInput) (ts : Nat)
    (hv : requiredMissing inp = false)
    (hd : findOneByEmail s.db inp.email = none) :
    register1 s inp ts =
      (⟨200, "Registration successful! See you at the festival!"⟩,
        { s with
          db := s.db ++ [{ _id := s.nextId, name := inp.name, email := inp.email,
                           phone := inp.phone, age := parseIntJS inp.age,
                           gender := inp.gender, experience := inp.experience,
                           participation := inp.participation,
                           paymentScreenshot := none, paymentScreenshotPath := none,
                           registeredAt := ts }],
          nextId := s.nextId + 1 }) := by
  unfold register1
  rw [if_neg (by simp [hv]), if_neg (by simp [hd])]

/-- Variant 2, duplicate email with an attachment: 400 rejection and the
uploaded file is unlinked. -/
theorem register2_dup (s : ServerState) (inp : RegInput) (f : UploadedFile)
    (ts : Nat) (insertErr : Option String)
    (hv : requiredMissing inp = false)
    (h : (findOneByEmail s.db inp.email).isSome = true) :
    register2 s inp (some f) ts insertErr =
      (⟨400, "User already registered with this email"⟩,
        { s with files := s.files.erase f.path }) := by
  unfold register2
  rw [if_neg (by simp [hv])]
  simp only
  rw [if_pos h]

/-- Variant 2: on a duplicate email the collection itself is never touched,
whatever the validation outcome or attachment. -/
theorem register2_db_of_dup (s : ServerState) (inp : RegInput) (file? : Option UploadedFile)
    (ts : Nat) (insertErr : Option String)
    (h : (findOneByEmail s.db inp.email).isSome = true) :
    (register2 s inp file? ts insertErr).2.db = s.db := by
  cases file? with
  | none =>
    unfold register2
    split <;> rfl
  | some f =>
    unfold register2
    split <;> rfl

/-- Variant 2, fresh email, attachment present, insert succeeds. -/
theorem register2_insert (s : ServerState) (inp : RegInput) (f : UploadedFile) (ts : Nat)
    (hv : requiredMissing inp = false)
    (hd : findOneByEmail s.db inp.email = none) :
    register2 s inp (some f) ts none =
      (⟨200, "Registration successful! Payment verification in progress. See you at the festival!"⟩,
        { s with
          db := s.db ++ [{ _id := s.nextId, name := inp.name, email := inp.email,
                           phone := inp.phone, age := parseIntJS inp.age,
                           gender := inp.gender, experience := inp.experience,
                           participation := inp.participation,
                           paymentScreenshot := some f.filename,
                           paymentScreenshotPath := some f.path,
                           registeredAt := ts }],
          nextId := s.nextId + 1 }) := by
  unfold register2
  rw [if_neg (by simp [hv])]
  simp only
  rw [if_neg (by simp [hd])]

/-- Variant 1 DELETE with a well-formed id: `deleteOne` runs and the fixed
200 acknowledgment is sent; files are never touched. -/
theorem deleteUser1_ok (s : ServerState) (idStr : String) (oid : Nat)
    (hp : parseObjectId idStr = some oid) :
    deleteUser1 s idStr = Except.ok (⟨200, "User deleted successfully"⟩,
      { s with db := deleteOneById s.db oid }) := by
  unfold deleteUser1
  rw [hp]

/-- Variant 1 DELETE with a malformed id: `new ObjectId` throws and the
exception leaves the handler (no try/catch in this variant). -/
theorem deleteUser1_malformed (s : ServerState) (idStr : String)
    (hp : parseObjectId idStr = none) :
    deleteUser1 s idStr = Except.error "input must be a 24 character hex string" := by
  unfold deleteUser1
  rw [hp]

/-- Variant 2 DELETE with a malformed id: the catch block answers 500 and
nothing was touched. -/
theorem deleteUser2_malformed (s : ServerState) (idStr : String)
    (hp : parseObjectId idStr = none) :
    deleteUser2 s idStr = (⟨500, "Failed to delete user"⟩, s) := by
  unfold deleteUser2
  rw [hp]

/-- Variant 2 DELETE with a well-formed id, fully characterized. -/
theorem deleteUser2_some (s : ServerState) (idStr : String) (oid : Nat)
    (hp : parseObjectId idStr = some oid) :
    deleteUser2 s idStr =
      (⟨200, "User deleted successfully"⟩,
        { s with db := deleteOneById s.db oid,
                 files :=
                   match s.db.find? (fun d => d._id == oid) with
                   | some u =>
                     match u.paymentScreenshotPath with
                     | some p => if p ∈ s.files then s.files.erase p else s.files
                     | none => s.files
                   | none => s.files }) := by
  unfold deleteUser2
  rw [hp]

/-- Variant 2 DELETE of a well-formed id carried by no document: silent
200 success on an unchanged state. -/
theorem deleteUser2_absent (s : ServerState) (idStr : String) (oid : Nat)
    (hp : parseObjectId idStr = some oid) (habs : ∀ d ∈ s.db, d._id ≠ oid) :
    deleteUser2 s idStr = (⟨200, "User deleted successfully"⟩, s) := by
  rw [deleteUser2_some s idStr oid hp, find?_id_of_absent s.db oid habs]
  simp only [deleteOneById, eraseP_id_of_absent s.db oid habs]

/-! ## Counting lemmas for the statistics endpoint -/

/-- The `$in` buckets overlap exactly on "both": competition plus workshop
equals the three-valued bucket plus the "both" bucket. -/
theorem stats_participation_sum (db : List UserDoc) :
    countDocuments db (fun d => d.participation == "competition" || d.participation == "both") +
      countDocuments db (fun d => d.participation == "workshop" || d.participation == "both") =
    countDocuments db (fun d => d.participation == "competition" ||
        d.participation == "workshop" || d.participation == "both") +
      countDocuments db (fun d => d.participation == "both") := by
  induction db with
  | nil => rfl
  | cons a l ih =>
    simp only [countDocuments, List.countP_cons] at ih ⊢
    by_cases h1 : a.participation = "competition"
    · have h2 : a.participation ≠ "workshop" := by simp [h1]
      have h3 : a.participation ≠ "both" := by simp [h1]
      simp only [h1, h2, h3]
      simp
      omega
    · by_cases h2 : a.participation = "workshop"
      · have h3 : a.participation ≠ "both" := by simp [h2]
        simp [h1, h2, h3]
        omega
      · by_cases h3 : a.participation = "both"
        · simp [h1, h2, h3]
          omega
        · simp [h1, h2, h3]
          omega

/-- Male and female are disjoint buckets, so their sum never exceeds the
total count. -/
theorem stats_gender_le (db : List UserDoc) :
    countDocuments db (fun d => d.gender == "male") +
      countDocuments db (fun d => d.gender == "female") ≤ db.length := by
  induction db with
  | nil => simp [countDocuments]
  | cons a l ih =>
    simp only [countDocuments, List.countP_cons, List.length_cons] at ih ⊢
    by_cases h1 : a.gender = "male"
    · have h2 : a.gender ≠ "female" := by simp [h1]
      simp [h1, h2]
      omega
    · by_cases h2 : a.gender = "female"
      · simp [h1, h2]
        omega
      · simp [h1, h2]
        omega

/-! ## Startup model

Both variants run `connectDB()` and `app.listen(PORT, ...)` in the same
synchronous module evaluation (variant 2: src/server.js lines 157-168 and
300-303). The `await client.connect()` promise cannot settle before that
evaluation finishes, so the process is already listening while the
connection attempt is still pending. Variant 2's catch block calls
`process.exit(1)` on a connection failure; after `process.exit` no further
JavaScript runs, so an exited process takes no step at all. -/

/-- Observable process status: is the HTTP server listening, is the store
connection attempt still pending, is `usersCollection` assigned, has
`process.exit` been called. -/
structure Proc where
  listening : Bool
  connectPending : Bool
  store : Bool
  exited : Bool
  deriving Repr, DecidableEq

/-- The state right after the module evaluated: listening, connection
attempt in flight, `usersCollection` still undefined. -/
def procInit : Proc :=
  { listening := true, connectPending := true, store := false, exited := false }

/-- What an execution step of the started process can be observed to do. -/
inductive ProcEvent where
  | connected : ProcEvent
  | connectFailed : ProcEvent
  | served : Bool → ProcEvent
  deriving Repr, DecidableEq

/-- Asynchronous steps of variant 2 after startup: the pending connection
resolves (assigning the store handle) or rejects (the catch block calls
`process.exit(1)`), and any request that arrives while the process is
listening and not exited is handled against the current store handle
(`ProcEvent.served` records that handle's status). -/
inductive ProcStep2 : Proc → ProcEvent → Proc → Prop where
  | connectOk (p : Proc) : p.exited = false → p.connectPending = true →
      ProcStep2 p ProcEvent.connected { p with connectPending := false, store := true }
  | connectFail (p : Proc) : p.exited = false → p.connectPending = true →
      ProcStep2 p ProcEvent.connectFailed { p with connectPending := false, exited := true }
  | request (p : Proc) : p.exited = false → p.listening = true →
      ProcStep2 p (ProcEvent.served p.store) p

/-! ## Sample data for concrete runs -/

/-- The spec's own scenario input (section 8). -/
def sampleInput : RegInput :=
  { name := "Ana", email := "a@x.com", phone := "555", age := "24",
    gender := "female", experience := "beginner", participation := "both" }

/-- A multer-written payment screenshot for that submission. -/
def sampleFile : UploadedFile :=
  { filename := "1700_555_pay.png", path := "payments/1700_555_pay.png" }

/-- An input whose age text has no numeric prefix: `parseInt` gives `NaN`. -/
def nanAgeInput : RegInput :=
  { name := "Ana", email := "a@x.com", phone := "555", age := "abc",
    gender := "female", experience := "beginner", participation := "both" }

/-- A document whose participation is none of the three recognized values. -/
def oddDoc : UserDoc :=
  { _id := 0, name := "Bob", email := "b@x.com", phone := "556", age := some 30,
    gender := "other", experience := "advanced", participation := "spectator",
    paymentScreenshot := none, paymentScreenshotPath := none, registeredAt := 0 }

/-- A stored registration of `sampleInput`, as variant 1 inserts it. -/
def sampleDoc : UserDoc :=
  { _id := 0, name := "Ana", email := "a@x.com", phone := "555", age := some 24,
    gender := "female", experience := "beginner", participation := "both",
    paymentScreenshot := none, paymentScreenshotPath := none, registeredAt := 5 }

/-- Variant 1 deployment after one successful registration. -/
def s1W : ServerState := (register1 initState sampleInput 5).2

/-- Variant 2 deployment after one successful registration with upload. -/
def s2W : ServerState :=
  (register2 { initState with files := fsWrite initState.files sampleFile.path }
    sampleInput (some sampleFile) 5 none).2

/-! ## Claims -/

/-- C2: for every registration call in which any required field is missing
or empty (falsy), both variants answer 400 "All fields are required" and
leave the state — in particular the stored record set — entirely unchanged. -/
theorem C2_validation_rejects_and_preserves (s : ServerState) (inp : RegInput)
    (file? : Option UploadedFile) (ts : Nat) (insertErr : Option String)
    (h : requiredMissing inp = true) :
    register1 s inp ts = (⟨400, "All fields are required"⟩, s) ∧
    register2 s inp file? ts insertErr = (⟨400, "All fields are required"⟩, s) := by
  constructor
  · unfold register1
    rw [if_pos h]
  · unfold register2
    rw [if_pos h]

theorem C2_validation_rejects_and_preserves_witness :
    requiredMissing { sampleInput with name := "" } = true ∧
    (register1 initState { sampleInput with name := "" } 0 =
        (⟨400, "All fields are required"⟩, initState) ∧
      register2 initState { sampleInput with name := "" } (some sampleFile) 0 none =
        (⟨400, "All fields are required"⟩, initState)) :=
  ⟨by decide,
    C2_validation_rejects_and_preserves initState { sampleInput with name := "" }
      (some sampleFile) 0 none (by decide)⟩

/-- C4: on a duplicate email that passed validation, variant 1 answers with
a 200 informational message while variant 2 answers with a 400 rejection;
the two responses are unequal (same message text, different status), and
neither variant touches the stored records on that branch. -/
theorem C4_duplicate_policy_divergence (s1 s2 : ServerState) (inp : RegInput)
    (f : UploadedFile) (ts : Nat) (insertErr : Option String)
    (hv : requiredMissing inp = false)
    (hd1 : (findOneByEmail s1.db inp.email).isSome = true)
    (hd2 : (findOneByEmail s2.db inp.email).isSome = true) :
    (register1 s1 inp ts).1 = ⟨200, "User already registered with this email"⟩ ∧
    (register2 s2 inp (some f) ts insertErr).1 =
      ⟨400, "User already registered with this email"⟩ ∧
    (register1 s1 inp ts).1 ≠ (register2 s2 inp (some f) ts insertErr).1 ∧
    (register1 s1 inp ts).2.db = s1.db ∧
    (register2 s2 inp (some f) ts insertErr).2.db = s2.db := by
  have h1 := register1_dup s1 inp ts hv hd1
  have h2 := register2_dup s2 inp f ts insertErr hv hd2
  refine ⟨by rw [h1], by rw [h2], ?_, by rw [h1], by rw [h2]⟩
  rw [h1, h2]
  intro hcontra
  cases hcontra

theorem C4_duplicate_policy_divergence_witness :
    requiredMissing sampleInput = false ∧
    (findOneByEmail s1W.db sampleInput.email).isSome = true ∧
    ((register1 s1W sampleInput 6).1 = ⟨200, "User already registered with this email"⟩ ∧
      (register2 s1W sampleInput (some sampleFile) 6 none).1 =
        ⟨400, "User already registered with this email"⟩ ∧
      (register1 s1W sampleInput 6).1 ≠ (register2 s1W sampleInput (some sampleFile) 6 none).1 ∧
      (register1 s1W sampleInput 6).2.db = s1W.db ∧
      (register2 s1W sampleInput (some sampleFile) 6 none).2.db = s1W.db) :=
  ⟨by decide, by decide,
    C4_duplicate_policy_divergence s1W s1W sampleInput sampleFile 6 none
      (by decide) (by decide) (by decide)⟩

/-- C6 as stated is false for variant 1: on the malformed identifier "abc"
its DELETE handler returns no response at all — `new ObjectId` throws and,
with no try/catch in that handler, the exception escapes (an `Except.error`
outcome, never a produced `Except.ok` response), so the service's own code
sends the caller no structured error response. -/
theorem C6_variant1_no_response_counterexample :
    deleteUser1 initState "abc" =
      Except.error "input must be a 24 character hex string" ∧
    (deleteUser1 initState "abc").isOk = false :=
  ⟨rfl, rfl⟩

/-- C6 amended: a DELETE with a malformed identifier leaves the record set
entirely unchanged in both variants; variant 2's catch block answers a
structured 500 message on the unchanged state, while variant 1's handler
throws out of `new ObjectId` before `deleteOne` runs and produces no
response of its own (the escaped exception is handed to the hosting
framework). -/
theorem C6_malformed_delete_changes_nothing (s1 s2 : ServerState) (idStr : String)
    (hp : parseObjectId idStr = none) :
    deleteUser2 s2 idStr = (⟨500, "Failed to delete user"⟩, s2) ∧
    deleteUser1 s1 idStr = Except.error "input must be a 24 character hex string" :=
  ⟨deleteUser2_malformed s2 idStr hp, deleteUser1_malformed s1 idStr hp⟩

theorem C6_malformed_delete_changes_nothing_witness :
    parseObjectId "abc" = none ∧
    (deleteUser2 s1W "abc" = (⟨500, "Failed to delete user"⟩, s1W) ∧
      deleteUser1 s1W "abc" = Except.error "input must be a 24 character hex string") :=
  ⟨by decide, C6_malformed_delete_changes_nothing s1W s1W "abc" (by decide)⟩

/-- C1: in every reachable state of either variant the stored emails are
pairwise distinct (at most one record per email), and a registration whose
email already has a record inserts nothing — variant 2 moreover unlinks the
file the duplicate submission had uploaded. -/
theorem C1_email_uniqueness_invariant (s1 s2 : ServerState)
    (h1 : Reachable1 s1) (h2 : Reachable2 s2)
    (inp : RegInput) (f : UploadedFile) (ts : Nat) (insertErr : Option String)
    (hv : requiredMissing inp = false)
    (hd1 : (findOneByEmail s1.db inp.email).isSome = true)
    (hd2 : (findOneByEmail s2.db inp.email).isSome = true) :
    (s1.db.map UserDoc.email).Nodup ∧
    (s2.db.map UserDoc.email).Nodup ∧
    (register1 s1 inp ts).2.db = s1.db ∧
    (register2 s2 inp (some f) ts insertErr).2.db = s2.db ∧
    (register2 s2 inp (some f) ts insertErr).2.files = s2.files.erase f.path := by
  refine ⟨(reachable1_inv s1 h1).emails, (reachable2_inv s2 h2).emails, ?_, ?_, ?_⟩
  · rw [register1_state_of_dup s1 inp ts hd1]
  · exact register2_db_of_dup s2 inp (some f) ts insertErr hd2
  · rw [register2_dup s2 inp f ts insertErr hv hd2]

theorem C1_email_uniqueness_invariant_witness :
    Reachable1 s1W ∧ Reachable2 s2W ∧
    ((s1W.db.map UserDoc.email).Nodup ∧
      (s2W.db.map UserDoc.email).Nodup ∧
      (register1 s1W sampleInput 9).2.db = s1W.db ∧
      (register2 s2W sampleInput (some sampleFile) 9 none).2.db = s2W.db ∧
      (register2 s2W sampleInput (some sampleFile) 9 none).2.files =
        s2W.files.erase sampleFile.path) :=
  ⟨Reachable1.reg initState sampleInput 5 Reachable1.init,
    Reachable2.reg initState sampleInput sampleFile 5 none Reachable2.init,
    C1_email_uniqueness_invariant s1W s2W
      (Reachable1.reg initState sampleInput 5 Reachable1.init)
      (Reachable2.reg initState sampleInput sampleFile 5 none Reachable2.init)
      sampleInput sampleFile 9 none (by decide) (by decide) (by decide)⟩

/-- C3: the claim says every failing branch of the upload variant removes
the already-written file, but the code unlinks only on the duplicate
branch. Concretely, with "payments/1700_555_pay.png" already written: a
validation failure (empty name, file attached) answers 400 and leaves the
file stored; an insert failure (catch branch) answers 500 and leaves the
file stored; only the duplicate branch removes it. -/
theorem C3_cleanup_only_on_duplicate_branch :
    (register2 { db := [], files := ["payments/1700_555_pay.png"], nextId := 0 }
        { sampleInput with name := "" } (some sampleFile) 0 none).1.status = 400 ∧
    (register2 { db := [], files := ["payments/1700_555_pay.png"], nextId := 0 }
        { sampleInput with name := "" } (some sampleFile) 0 none).2.files =
      ["payments/1700_555_pay.png"] ∧
    (register2 { db := [], files := ["payments/1700_555_pay.png"], nextId := 0 }
        sampleInput (some sampleFile) 0 (some "socket closed")).1.status = 500 ∧
    (register2 { db := [], files := ["payments/1700_555_pay.png"], nextId := 0 }
        sampleInput (some sampleFile) 0 (some "socket closed")).2.files =
      ["payments/1700_555_pay.png"] ∧
    (register2 { db := [sampleDoc], files := ["payments/1700_555_pay.png"], nextId := 1 }
        sampleInput (some sampleFile) 0 none).2.files = [] := by
  decide

/-- C5: deleting a well-formed identifier: in both variants the answer is
the 200 acknowledgment and no document with that id appears in any later
GET /users; in variant 2 the deleted document's stored image (if any) is
unlinked first, with a missing file tolerated (the `existsSync` guard), and
a well-formed id carried by no document succeeds silently on an unchanged
state. Variant 1 records never carry an image, so it has nothing to unlink. -/
theorem C5_delete_removes_record_and_image (s1 s2 : ServerState)
    (h1 : Reachable1 s1) (h2 : Reachable2 s2)
    (idStr1 idStr2 : String) (oid1 oid2 : Nat)
    (hp1 : parseObjectId idStr1 = some oid1)
    (hp2 : parseObjectId idStr2 = some oid2) :
    (∃ s', deleteUser1 s1 idStr1 = Except.ok (⟨200, "User deleted successfully"⟩, s') ∧
      (∀ u ∈ getUsers1 s', u._id ≠ oid1) ∧ s'.files = s1.files ∧
      ∀ d ∈ s1.db, d.paymentScreenshotPath = none) ∧
    (deleteUser2 s2 idStr2).1 = ⟨200, "User deleted successfully"⟩ ∧
    (∀ u ∈ getUsers2 (deleteUser2 s2 idStr2).2, u._id ≠ oid2) ∧
    (∀ d ∈ s2.db, d._id = oid2 → ∀ p, d.paymentScreenshotPath = some p →
      (p ∈ s2.files → p ∉ (deleteUser2 s2 idStr2).2.files) ∧
      (p ∉ s2.files → (deleteUser2 s2 idStr2).2.files = s2.files)) ∧
    ((∀ d ∈ s2.db, d._id ≠ oid2) →
      deleteUser2 s2 idStr2 = (⟨200, "User deleted successfully"⟩, s2)) := by
  have inv1 := reachable1_inv s1 h1
  have inv2 := reachable2_inv s2 h2
  have hdel2 := deleteUser2_some s2 idStr2 oid2 hp2
  refine ⟨?_, ?_, ?_, ?_, ?_⟩
  · refine ⟨{ s1 with db := deleteOneById s1.db oid1 },
      deleteUser1_ok s1 idStr1 oid1 hp1, ?_, rfl,
      fun d hd => (reachable1_noImages s1 h1 d hd).2⟩
    intro u hu
    exact eraseP_id_ne s1.db oid1 inv1.ids u hu
  · rw [hdel2]
  · intro u hu
    rw [hdel2] at hu
    exact eraseP_id_ne s2.db oid2 inv2.ids u hu
  · intro d hd hdid p hpath
    have hfind : s2.db.find? (fun x => x._id == oid2) = some d := by
      have hmemfind := find?_id_of_mem s2.db d inv2.ids hd
      rw [hdid] at hmemfind
      exact hmemfind
    constructor
    · intro hmem hcontra
      simp only [hdel2, hfind, hpath] at hcontra
      rw [if_pos hmem] at hcontra
      exact ((inv2.filesNodup.mem_erase_iff).1 hcontra).1 rfl
    · intro hmem
      simp only [hdel2, hfind, hpath]
      rw [if_neg hmem]
  · intro habs
    exact deleteUser2_absent s2 idStr2 oid2 hp2 habs

theorem C5_delete_removes_record_and_image_witness :
    Reachable1 s1W ∧ Reachable2 s2W ∧
    parseObjectId "000000000000000000000000" = some 0 ∧
    ((∃ s', deleteUser1 s1W "000000000000000000000000" =
        Except.ok (⟨200, "User deleted successfully"⟩, s') ∧
        (∀ u ∈ getUsers1 s', u._id ≠ 0) ∧ s'.files = s1W.files ∧
        ∀ d ∈ s1W.db, d.paymentScreenshotPath = none) ∧
      (deleteUser2 s2W "000000000000000000000000").1 = ⟨200, "User deleted successfully"⟩ ∧
      (∀ u ∈ getUsers2 (deleteUser2 s2W "000000000000000000000000").2, u._id ≠ 0) ∧
      (∀ d ∈ s2W.db, d._id = 0 → ∀ p, d.paymentScreenshotPath = some p →
        (p ∈ s2W.files → p ∉ (deleteUser2 s2W "000000000000000000000000").2.files) ∧
        (p ∉ s2W.files → (deleteUser2 s2W "000000000000000000000000").2.files = s2W.files)) ∧
      ((∀ d ∈ s2W.db, d._id ≠ 0) →
        deleteUser2 s2W "000000000000000000000000" =
          (⟨200, "User deleted successfully"⟩, s2W))) :=
  ⟨Reachable1.reg initState sampleInput 5 Reachable1.init,
    Reachable2.reg initState sampleInput sampleFile 5 none Reachable2.init,
    by decide,
    C5_delete_removes_record_and_image s1W s2W
      (Reachable1.reg initState sampleInput 5 Reachable1.init)
      (Reachable2.reg initState sampleInput sampleFile 5 none Reachable2.init)
      "000000000000000000000000" "000000000000000000000000" 0 0
      (by decide) (by decide)⟩

/-- C7 as stated is false: with a record whose participation is a fourth
value ("spectator" — the field is an open string set that registration
never restricts), competition + workshop − both is 0 while the count of
records with non-empty participation is 1. -/
theorem C7_stats_nonempty_participation_counterexample :
    ¬ ((getStats [oddDoc]).total = [oddDoc].length ∧
      (getStats [oddDoc]).male + (getStats [oddDoc]).female ≤ (getStats [oddDoc]).total ∧
      (getStats [oddDoc]).competition + (getStats [oddDoc]).workshop
          - countDocuments [oddDoc] (fun d => d.participation == "both")
        = countDocuments [oddDoc] (fun d => !(d.participation == ""))) := by
  decide

/-- C7 amended: for every stored record set, statistics are consistent with
the list contents: total equals the record count, male + female ≤ total,
and competition + workshop − (count of "both") equals the number of records
whose participation is one of "competition", "workshop", "both" (not every
non-empty participation, since the field is unvalidated free text). -/
theorem C7_stats_consistent_with_list (s : ServerState) :
    (getStats s.db).total = (getUsers2 s).length ∧
    (getStats s.db).male + (getStats s.db).female ≤ (getStats s.db).total ∧
    (getStats s.db).competition + (getStats s.db).workshop
        - countDocuments s.db (fun d => d.participation == "both")
      = countDocuments s.db (fun d => d.participation == "competition" ||
          d.participation == "workshop" || d.participation == "both") := by
  refine ⟨rfl, stats_gender_le s.db, ?_⟩
  have hsum := stats_participation_sum s.db
  simp only [getStats] at hsum ⊢
  omega

/-- C8 as stated is false on its "equivalently" clause: in the startup
model of the code itself, the initial state is already listening while the
connection attempt is pending, and a request step is enabled there with the
store handle uninitialized. -/
theorem C8_request_before_connect_counterexample :
    ProcStep2 procInit (ProcEvent.served false) procInit ∧ procInit.store = false :=
  ⟨ProcStep2.request procInit rfl rfl, rfl⟩

/-- C8 amended: if the connection attempt fails, variant 2's catch block
exits the process (exited state), and an exited process takes no step at
all — in particular serves no request; but this does not extend to the
window before the attempt resolves, where requests are served against an
uninitialized handle. -/
theorem C8_connect_failure_exits (p q : Proc)
    (hfail : ProcStep2 p ProcEvent.connectFailed q) :
    q.exited = true ∧ ∀ p' e' q', p'.exited = true → ¬ ProcStep2 p' e' q' := by
  constructor
  · cases hfail with
    | connectFail h1 h2 => rfl
  · intro p' e' q' hex hstep
    cases hstep with
    | connectOk hne hpend => rw [hex] at hne; exact Bool.noConfusion hne
    | connectFail hne hpend => rw [hex] at hne; exact Bool.noConfusion hne
    | request hne hlis => rw [hex] at hne; exact Bool.noConfusion hne

theorem C8_connect_failure_exits_witness :
    ProcStep2 procInit ProcEvent.connectFailed
      { procInit with connectPending := false, exited := true } ∧
    (({ procInit with connectPending := false, exited := true } : Proc).exited = true ∧
      ∀ p' e' q', p'.exited = true → ¬ ProcStep2 p' e' q') :=
  ⟨ProcStep2.connectFail procInit rfl rfl,
    C8_connect_failure_exits procInit _ (ProcStep2.connectFail procInit rfl rfl)⟩

/-- C9 as stated is false: age "abc" passes the required-field check (it is
non-empty), the registration succeeds with status 200, yet the stored age
is `parseInt("abc")`, i.e. `NaN` (modelled `none`) — not an integer. -/
theorem C9_nan_age_counterexample :
    (register1 initState nanAgeInput 0).1.status = 200 ∧
    (register1 initState nanAgeInput 0).2.db.map UserDoc.age = [none] ∧
    (register2 { initState with files := [sampleFile.path] } nanAgeInput
        (some sampleFile) 0 none).1.status = 200 ∧
    (register2 { initState with files := [sampleFile.path] } nanAgeInput
        (some sampleFile) 0 none).2.db.map UserDoc.age = [none] := by
  decide

/-- C9 amended: every successful registration stores exactly
`parseInt(age)` — the integer denoted by the text's leading (optionally
signed, possibly 0x-hexadecimal) digit prefix after whitespace, with no
range validation, and `NaN` (not an integer) when no such prefix exists. -/
theorem C9_age_is_parseint (s : ServerState) (inp : RegInput) (f : UploadedFile) (ts : Nat)
    (hv : requiredMissing inp = false)
    (hd : findOneByEmail s.db inp.email = none) :
    (register1 s inp ts).1.status = 200 ∧
    (register1 s inp ts).2.db.map UserDoc.age = s.db.map UserDoc.age ++ [parseIntJS inp.age] ∧
    (register2 s inp (some f) ts none).1.status = 200 ∧
    (register2 s inp (some f) ts none).2.db.map UserDoc.age =
      s.db.map UserDoc.age ++ [parseIntJS inp.age] := by
  rw [register1_insert s inp ts hv hd, register2_insert s inp f ts hv hd]
  refine ⟨rfl, by simp, rfl, by simp⟩

theorem C9_age_is_parseint_witness :
    requiredMissing sampleInput = false ∧
    findOneByEmail initState.db sampleInput.email = none ∧
    ((register1 initState sampleInput 0).1.status = 200 ∧
      (register1 initState sampleInput 0).2.db.map UserDoc.age =
        initState.db.map UserDoc.age ++ [parseIntJS sampleInput.age] ∧
      (register2 initState sampleInput (some sampleFile) 0 none).1.status = 200 ∧
      (register2 initState sampleInput (some sampleFile) 0 none).2.db.map UserDoc.age =
        initState.db.map UserDoc.age ++ [parseIntJS sampleInput.age]) :=
  ⟨by decide, by decide,
    C9_age_is_parseint initState sampleInput sampleFile 0 (by decide) (by decide)⟩

/-- C10: GET /users returns the stored documents verbatim — no projection
or redaction at all — and in particular a record created by the upload
variant is returned with its system-assigned `_id` and the server-local
`paymentScreenshotPath` of the payment image. -/
theorem C10_users_returns_documents_verbatim (s : ServerState) (inp : RegInput)
    (f : UploadedFile) (ts : Nat)
    (hv : requiredMissing inp = false)
    (hd : findOneByEmail s.db inp.email = none) :
    (∀ t : ServerState, getUsers2 t = t.db) ∧
    getUsers2 (register2 s inp (some f) ts none).2 =
      s.db ++ [{ _id := s.nextId, name := inp.name, email := inp.email, phone := inp.phone,
                 age := parseIntJS inp.age, gender := inp.gender, experience := inp.experience,
                 participation := inp.participation, paymentScreenshot := some f.filename,
                 paymentScreenshotPath := some f.path, registeredAt := ts }] := by
  refine ⟨fun t => rfl, ?_⟩
  rw [register2_insert s inp f ts hv hd]
  rfl

theorem C10_users_returns_documents_verbatim_witness :
    requiredMissing sampleInput = false ∧
    findOneByEmail initState.db sampleInput.email = none ∧
    ((∀ t : ServerState, getUsers2 t = t.db) ∧
      getUsers2 (register2 initState sampleInput (some sampleFile) 7 none).2 =
        initState.db ++ [{ _id := initState.nextId, name := sampleInput.name,
                           email := sampleInput.email, phone := sampleInput.phone,
                           age := parseIntJS sampleInput.age, gender := sampleInput.gender,
                           experience := sampleInput.experience,
                           participation := sampleInput.participation,
                           paymentScreenshot := some sampleFile.filename,
                           paymentScreenshotPath := some sampleFile.path,
                           registeredAt := 7 }]) :=
  ⟨by decide, by decide,
    C10_users_returns_documents_verbatim initState sampleInput sampleFile 7
      (by decide) (by decide)⟩
